import Mathlib

/-!
Shallow embedding of the pragati PDF-extraction backend (the Express app in
`website/backend/server.js`) together with the upload logic of the bundled
React frontend, used to check the claims of the specification against the
code.  Machine-level details that the claims do not touch (byte streams,
HTTP framing, the text of Node error messages) are abstracted, but every
control-flow decision of the handler is modelled from the source.
-/

namespace Pragati

/-- Decimal digit characters of `n`, most significant first, by structural
recursion on a fuel bound; empty for `n = 0`. -/
def natToStringAux : Nat → Nat → List Char
  | 0, _ => []
  | fuel+1, n => if n = 0 then [] else natToStringAux fuel (n / 10) ++ [Nat.digitChar (n % 10)]

/-- Decimal rendering of a natural number, as produced by a JavaScript
template literal for an integer-valued number such as `Date.now()`. -/
def natToString (n : Nat) : String :=
  if n = 0 then "0" else ⟨natToStringAux n n⟩

/-- Reads a decimal rendering back; used to prove `natToString` injective. -/
def ofDecimalChars (cs : List Char) : Nat :=
  Nat.ofDigits 10 (cs.reverse.map (fun c => c.toNat - 48))

/-- Suffix of a character list starting at its last dot; `[]` when no dot
occurs. -/
def extTail : List Char → List Char
  | [] => []
  | c :: rest =>
    let t := extTail rest
    if t.isEmpty then (if c = '.' then c :: rest else []) else t

/-- Model of `path.extname` for a bare filename: the extension starting at the
last dot, empty when there is no dot or when the only dot is the leading
character. -/
def extname (s : String) : String :=
  let t := extTail s.data
  if t.length = s.data.length then "" else ⟨t⟩

/-- Model of `path.basename(name, ext)` for a bare filename: strips a trailing
`ext` when it is a proper suffix of the name. -/
def basenameSuffix (s ext : String) : String :=
  if ext.data ≠ [] ∧ ext.data.length < s.data.length ∧ ext.data.isSuffixOf s.data = true
  then ⟨s.data.take (s.data.length - ext.data.length)⟩ else s

/-- Lines 86-92 of the backend: the multer disk-storage filename callback.
`timestamp` is the value of `Date.now()` at the moment the file is stored. -/
def storageFilename (originalname : String) (timestamp : Nat) : String :=
  let extension := extname originalname
  let baseName := basenameSuffix originalname extension
  baseName ++ "_" ++ natToString timestamp ++ extension

/-- The property the spec claims for the artifact store: any two distinct
upload acquisitions (each an original filename paired with the `Date.now()`
value observed when it was stored) receive distinct stored filenames. -/
def storedNamesAllDistinct (acqs : List (String × Nat)) : Prop :=
  acqs.Pairwise (fun a b => storageFilename a.1 a.2 ≠ storageFilename b.1 b.2)

/-- Flat model of the server filesystem: a list of (path, contents) entries in
creation order; `readdir` lists the entries of a directory in this order. -/
structure Fs where
  files : List (String × String)
deriving DecidableEq

/-- Model of `fs.exists`. -/
def Fs.existsFile (fs : Fs) (p : String) : Bool :=
  fs.files.any (fun e => e.1 == p)

/-- Model of `fs.readFile`. -/
def Fs.readFile (fs : Fs) (p : String) : Option String :=
  (fs.files.find? (fun e => e.1 == p)).map (fun e => e.2)

/-- Model of writing a new file (as the multer disk storage does). -/
def Fs.writeFile (fs : Fs) (p c : String) : Fs :=
  ⟨fs.files ++ [(p, c)]⟩

/-- Model of `fs.remove`. -/
def Fs.removeFile (fs : Fs) (p : String) : Fs :=
  ⟨fs.files.filter (fun e => e.1 != p)⟩

/-- Model of `fs.readdir`: the names of the entries sitting directly under
`dir`, in filesystem order. -/
def Fs.readdir (fs : Fs) (dir : String) : List String :=
  fs.files.filterMap (fun e =>
    if (dir ++ "/").data.isPrefixOf e.1.data = true
    then some ⟨e.1.data.drop (dir ++ "/").data.length⟩ else none)

/-- JSON values, for the response bodies the server sends. -/
inductive JsonValue where
  | str (s : String)
  | num (n : Nat)
  | bool (b : Bool)
  | obj (fields : List (String × JsonValue))
  | null

/-- An HTTP response: status code plus the field list of the JSON body (every
`res.json` call in the backend passes an object literal). -/
structure Response where
  status : Nat
  body : List (String × JsonValue)

/-- The fields of a multer `req.file` record that the handler reads, plus the
uploaded bytes (which multer has written to `path` on disk). -/
structure UploadedFile where
  fieldname : String
  originalname : String
  mimetype : String
  size : Nat
  filename : String
  path : String
  content : String
deriving DecidableEq

/-- One file part of an incoming multipart request, as the frontend built it. -/
structure FilePart where
  fieldname : String
  originalname : String
  mimetype : String
  size : Nat
  content : String
deriving DecidableEq

/-- The multer error codes distinguished by the error middleware, plus the
unexpected-field code raised when a part arrives under the wrong field name. -/
inductive MulterErrorCode where
  | limitFileSize
  | limitFileCount
  | limitUnexpectedFile
deriving DecidableEq

/-- An error produced by the middleware layer: a `MulterError` with a code, or
a plain error carrying a message (as thrown by the `fileFilter`). -/
inductive MwError where
  | multerErr (code : MulterErrorCode)
  | otherErr (msg : String)
deriving DecidableEq

/-- Line 105: `fileSize: 50 * 1024 * 1024`. -/
def fileSizeLimit : Nat := 50 * 1024 * 1024

/-- Lines 95-107 together with `upload.single` on the field `pdf` (line 132), applied to
the ordered file parts of a multipart request: a part whose field is not
`pdf` (or a second `pdf` part) aborts with `LIMIT_UNEXPECTED_FILE`; a
non-PDF mimetype aborts with the `fileFilter` error; a part exceeding the
50MB limit aborts with `LIMIT_FILE_SIZE`; otherwise the part is stored under
`uploads/` with the name produced by `storageFilename`. -/
def uploadSingleGo (timestamp : Nat) :
    List FilePart → Option UploadedFile → Except MwError (Option UploadedFile)
  | [], acc => .ok acc
  | p :: rest, acc =>
    if p.fieldname != "pdf" then .error (.multerErr .limitUnexpectedFile)
    else if acc.isSome then .error (.multerErr .limitUnexpectedFile)
    else if p.mimetype != "application/pdf" then .error (.otherErr "Only PDF files are allowed!")
    else if fileSizeLimit < p.size then .error (.multerErr .limitFileSize)
    else uploadSingleGo timestamp rest (some
      { fieldname := p.fieldname, originalname := p.originalname,
        mimetype := p.mimetype, size := p.size,
        filename := storageFilename p.originalname timestamp,
        path := "uploads/" ++ storageFilename p.originalname timestamp,
        content := p.content })

/-- The `upload.single` middleware for the field `pdf` over a whole request. -/
def uploadSingle (parts : List FilePart) (timestamp : Nat) :
    Except MwError (Option UploadedFile) :=
  uploadSingleGo timestamp parts none

/-- Outcome of the one `exec` call made by `runPythonExtractor`: either the
spawned shell completed with an exit code and captured stdout/stderr, or
spawning itself failed. -/
inductive ExecOutcome where
  | completed (exitCode : Nat) (stdout stderr : String)
  | spawnError (msg : String)
deriving DecidableEq

/-- Result of running the external extraction command: the filesystem state it
leaves behind plus its `ExecOutcome`. -/
structure ExecResult where
  fs : Fs
  outcome : ExecOutcome
deriving DecidableEq

/-- Message of the error `execPromise` rejects with on a non-zero exit (the
text is abbreviated; only its verbatim propagation matters to the claims). -/
def execFailureMessage (exitCode : Nat) : String :=
  "Command failed with exit code " ++ natToString exitCode

/-- Lines 109-130: `runPythonExtractor`.  `execPromise` resolves exactly when
the command exits with code 0; stderr is only logged with `console.warn` and
never affects the result; a non-zero exit or a spawn failure rejects, and the
rejection is rethrown to the caller. -/
def runPythonExtractor (r : ExecResult) : Fs × Except String Bool :=
  match r.outcome with
  | .completed exitCode _ _ =>
    if exitCode = 0 then (r.fs, .ok true) else (r.fs, .error (execFailureMessage exitCode))
  | .spawnError msg => (r.fs, .error msg)

/-- Line 141: `const outputDir = path.join(__dirname, <output>)`.  Since
`__dirname` is a server-wide constant, the directory handed to the extractor
is the same for every request; it does not depend on `req.file`.  (The
`__dirname` component of the path is elided.) -/
def outputDirOf (_req : UploadedFile) : String := "output"

/-- Lines 147-171: locate the extraction output.  `txtFile` and `jsonFile` are
declared `const` (lines 148-149); both fallback branches assign to them
(lines 157-158 and 165-166), and assignment to a `const` binding throws
`TypeError: Assignment to constant variable` in JavaScript, so each fallback
strategy throws at the moment it would record its candidate files. -/
def resolveArtifacts (f : UploadedFile) (fs1 : Fs) : Except String (String × String) :=
  let baseName := basenameSuffix f.filename ".pdf"
  let txtFile := outputDirOf f ++ "/" ++ baseName ++ ".txt"
  let jsonFile := outputDirOf f ++ "/" ++ baseName ++ ".json"
  if !fs1.existsFile txtFile || !fs1.existsFile jsonFile then
    let alternateBaseName := basenameSuffix f.originalname ".pdf"
    let alternateTxtFile := outputDirOf f ++ "/" ++ alternateBaseName ++ ".txt"
    let alternateJsonFile := outputDirOf f ++ "/" ++ alternateBaseName ++ ".json"
    if fs1.existsFile alternateTxtFile && fs1.existsFile alternateJsonFile then
      .error "Assignment to constant variable"
    else
      let files := fs1.readdir (outputDirOf f)
      let txtFiles := files.filter (fun n => ".txt".data.isSuffixOf n.data)
      let jsonFiles := files.filter (fun n => ".json".data.isSuffixOf n.data)
      if txtFiles.length > 0 ∧ jsonFiles.length > 0 then
        .error "Assignment to constant variable"
      else
        .error "Output files not found after extraction"
  else
    .ok (txtFile, jsonFile)

/-- Lines 193-208: the catch block of the handler.  The uploaded file is
removed, and the 500 response carries the message of the caught error
verbatim in its `details` field. -/
def respondError (f : UploadedFile) (fs : Fs) (msg : String) : Response × Fs :=
  (⟨500, [("error", .str "Failed to process PDF file"), ("details", .str msg)]⟩,
   fs.removeFile f.path)

/-- Lines 178-191: the success response object.  `now` is the wall-clock ISO
timestamp `new Date().toISOString()`. -/
def successResponse (f : UploadedFile) (txtContent : String) (jsonContent : JsonValue)
    (now : String) : Response :=
  ⟨200, [("success", .bool true),
         ("txtContent", .str txtContent),
         ("txtFilename", .str (basenameSuffix f.originalname ".pdf" ++ ".txt")),
         ("jsonContent", jsonContent),
         ("jsonFilename", .str (basenameSuffix f.originalname ".pdf" ++ ".json")),
         ("metadata", .obj [("originalFilename", .str f.originalname),
                            ("extractedAt", .str now),
                            ("fileSize", .num f.size)])]⟩

/-- Lines 132-209: the body of the POST /api/extract handler, entered after
the multer middleware.  `exec` is the external extraction process viewed as a
function of the filesystem it runs against, `parseJson` models `JSON.parse`,
and `now` the wall-clock timestamp used in the response metadata.  On the
success path line 176 removes only the uploaded PDF; the catch block likewise
removes only the uploaded PDF. -/
def handleExtract (reqFile : Option UploadedFile) (fs0 : Fs)
    (exec : Fs → ExecResult) (parseJson : String → Except String JsonValue)
    (now : String) : Response × Fs :=
  match reqFile with
  | none => (⟨400, [("error", .str "No PDF file uploaded")]⟩, fs0)
  | some f =>
    match runPythonExtractor (exec fs0) with
    | (fs1, .error e) => respondError f fs1 e
    | (fs1, .ok _) =>
      match resolveArtifacts f fs1 with
      | .error e => respondError f fs1 e
      | .ok (txtFile, jsonFile) =>
        match fs1.readFile txtFile, fs1.readFile jsonFile with
        | some txtContent, some jsonRaw =>
          match parseJson jsonRaw with
          | .error e => respondError f fs1 e
          | .ok jsonContent =>
            (successResponse f txtContent jsonContent now, fs1.removeFile f.path)
        | _, _ => respondError f fs1 "no such file or directory"

/-- Lines 230-246: the express error middleware.  Only `LIMIT_FILE_SIZE`,
`LIMIT_FILE_COUNT` and the fileFilter message get dedicated 400 responses;
every other error (including `LIMIT_UNEXPECTED_FILE`) falls through to the
generic 500. -/
def errorMiddleware : MwError → Response
  | .multerErr .limitFileSize => ⟨400, [("error", .str "File too large (max 50MB)")]⟩
  | .multerErr .limitFileCount => ⟨400, [("error", .str "Too many files")]⟩
  | .multerErr .limitUnexpectedFile => ⟨500, [("error", .str "Internal server error")]⟩
  | .otherErr msg =>
    if msg = "Only PDF files are allowed!"
    then ⟨400, [("error", .str "Only PDF files are allowed")]⟩
    else ⟨500, [("error", .str "Internal server error")]⟩

/-- The full POST /api/extract route: the multer middleware runs first, its
errors go to the error middleware, and on acceptance multer has written the
uploaded bytes to `req.file.path` before the handler body runs. -/
def postExtract (parts : List FilePart) (timestamp : Nat) (fs0 : Fs)
    (exec : Fs → ExecResult) (parseJson : String → Except String JsonValue)
    (now : String) : Response × Fs :=
  match uploadSingle parts timestamp with
  | .error e => (errorMiddleware e, fs0)
  | .ok none => handleExtract none fs0 exec parseJson now
  | .ok (some f) => handleExtract (some f) (fs0.writeFile f.path f.content) exec parseJson now

/-- Frontend `handleUpload` (both bundled frontends, e.g.
`website/frontend/src/App.js` lines 52-79): the selected file is appended to
the form data under the field name `file`, and `handleFileChange` only keeps
files whose type is `application/pdf`, so every request the shipped UI sends
has exactly this shape. -/
def frontendRequestParts (name content : String) (size : Nat) : List FilePart :=
  [{ fieldname := "file", originalname := name, mimetype := "application/pdf",
     size := size, content := content }]

/-! Concrete fixtures used by the counterexamples and witnesses. -/

/-- A stored upload: original name `doc.pdf`, stored as `doc_111.pdf`. -/
def sampleFile : UploadedFile :=
  { fieldname := "pdf", originalname := "doc.pdf", mimetype := "application/pdf",
    size := 4, filename := "doc_111.pdf", path := "uploads/doc_111.pdf", content := "PDF!" }

/-- A second, distinct job with its own upload. -/
def otherFile : UploadedFile :=
  { fieldname := "pdf", originalname := "plan.pdf", mimetype := "application/pdf",
    size := 9, filename := "plan_222.pdf", path := "uploads/plan_222.pdf", content := "PDF2" }

/-- The filesystem right after multer stored `sampleFile`. -/
def uploadedFs : Fs := ⟨[("uploads/doc_111.pdf", "PDF!")]⟩

/-- An extraction process that exits with code 0 after writing the given
output files, emitting some stderr noise. -/
def execWriting (outs : List (String × String)) : Fs → ExecResult :=
  fun fs => ⟨⟨fs.files ++ outs⟩, .completed 0 "" "fontTools warning"⟩

/-- An extraction process that exits with code 0 without writing anything. -/
def execSilent : Fs → ExecResult := fun fs => ⟨fs, .completed 0 "" ""⟩

/-- A `JSON.parse` oracle that accepts every input. -/
def parseAsString : String → Except String JsonValue := fun s => .ok (.str s)

/-- A filesystem in which only one unmatched output pair exists, so that only
the directory-scan strategy could ever resolve it. -/
def scanFs : Fs :=
  ⟨[("uploads/doc_111.pdf", "PDF!"), ("output/other.txt", "h"), ("output/other.json", "r")]⟩

/-! Helper lemmas. -/

/-- Removing a path removes it: the removed file no longer exists. -/
theorem existsFile_removeFile_self (fs : Fs) (p : String) :
    (fs.removeFile p).existsFile p = false := by
  simp only [Fs.removeFile, Fs.existsFile, List.any_filter]
  simp

/-- With enough fuel, `natToStringAux` renders exactly the reversed decimal
digit list of `n`. -/
theorem natToStringAux_eq (fuel : Nat) : ∀ n : Nat, n ≤ fuel →
    natToStringAux fuel n = (Nat.digits 10 n).reverse.map Nat.digitChar := by
  induction fuel with
  | zero =>
    intro n h
    have h0 : n = 0 := Nat.le_zero.mp h
    subst h0
    simp [natToStringAux]
  | succ fuel ih =>
    intro n h
    by_cases h0 : n = 0
    · subst h0; simp [natToStringAux]
    · have hdiv : n / 10 ≤ fuel :=
        Nat.le_of_lt_succ
          (Nat.lt_of_lt_of_le (Nat.div_lt_self (Nat.pos_of_ne_zero h0) (by norm_num)) h)
      rw [natToStringAux, if_neg h0, ih (n / 10) hdiv,
        Nat.digits_def' (by norm_num : (1:Nat) < 10) (Nat.pos_of_ne_zero h0)]
      simp

/-- The character of a decimal digit reads back to the digit. -/
theorem toNat_digitChar_sub (d : Nat) (hd : d < 10) :
    (Nat.digitChar d).toNat - 48 = d := by
  interval_cases d <;> rfl

/-- Round trip: `ofDecimalChars` recovers the number `natToString` rendered. -/
theorem ofDecimalChars_natToString (n : Nat) :
    ofDecimalChars (natToString n).data = n := by
  by_cases h : n = 0
  · subst h; rfl
  · simp only [natToString, ofDecimalChars, if_neg h, natToStringAux_eq n n (Nat.le_refl n)]
    rw [List.map_reverse, List.map_map, List.map_reverse, List.reverse_reverse]
    have hmap : (Nat.digits 10 n).map ((fun c => c.toNat - 48) ∘ Nat.digitChar)
        = (Nat.digits 10 n).map id := by
      apply List.map_congr_left
      intro d hdm
      exact toNat_digitChar_sub d (Nat.digits_lt_base (by norm_num) hdm)
    rw [hmap, List.map_id, Nat.ofDigits_digits]

/-- The decimal rendering is injective. -/
theorem natToString_inj {m n : Nat} (h : natToString m = natToString n) : m = n := by
  have h2 := congrArg (fun s => ofDecimalChars s.data) h
  simpa [ofDecimalChars_natToString] using h2

/-- Appending strings appends their character lists. -/
theorem strData_append (a b : String) : (a ++ b).data = a.data ++ b.data := rfl

/-! Claim theorems. -/

/-- Claim C1, counterexample: a run of the handler that terminates
successfully (status 200) leaves both extraction output files in place under
the output directory, so extraction output does outlive the job. -/
theorem C1_outputs_survive_success :
    (handleExtract (some sampleFile) uploadedFs
        (execWriting [("output/doc_111.txt", "hello"), ("output/doc_111.json", "rawjson")])
        parseAsString "NOW").1.status = 200 ∧
    (handleExtract (some sampleFile) uploadedFs
        (execWriting [("output/doc_111.txt", "hello"), ("output/doc_111.json", "rawjson")])
        parseAsString "NOW").2.existsFile "output/doc_111.txt" = true ∧
    (handleExtract (some sampleFile) uploadedFs
        (execWriting [("output/doc_111.txt", "hello"), ("output/doc_111.json", "rawjson")])
        parseAsString "NOW").2.existsFile "output/doc_111.json" = true :=
  ⟨rfl, rfl, rfl⟩

/-- Claim C1, amended: on every exit path of the handler (success, extraction
failure, resolution failure, parse failure) the uploaded document file itself
is removed; only the upload is cleaned up, never the extraction output. -/
theorem C1_upload_always_removed (f : UploadedFile) (fs0 : Fs) (exec : Fs → ExecResult)
    (parseJson : String → Except String JsonValue) (now : String) :
    ((handleExtract (some f) fs0 exec parseJson now).2).existsFile f.path = false := by
  simp only [handleExtract]
  repeat' split
  all_goals simp [respondError, existsFile_removeFile_self]

/-- Claim C2: in the exact situation the claim describes (stored-name outputs
absent, original-name `.txt` and `.json` both present) the handler does not
return their contents: the fallback assigns to the `const` bindings `txtFile`
and `jsonFile`, which throws `TypeError: Assignment to constant variable`,
and the caller gets a 500 carrying that message.  The final filesystem shows
the upload was removed by the catch block while the outputs remain. -/
theorem C2_strategy2_throws_typeerror :
    (⟨uploadedFs.files ++ [("output/doc.txt", "hello"), ("output/doc.json", "rawjson")]⟩
        : Fs).existsFile "output/doc.txt" = true ∧
    (⟨uploadedFs.files ++ [("output/doc.txt", "hello"), ("output/doc.json", "rawjson")]⟩
        : Fs).existsFile "output/doc.json" = true ∧
    (⟨uploadedFs.files ++ [("output/doc.txt", "hello"), ("output/doc.json", "rawjson")]⟩
        : Fs).existsFile "output/doc_111.txt" = false ∧
    handleExtract (some sampleFile) uploadedFs
        (execWriting [("output/doc.txt", "hello"), ("output/doc.json", "rawjson")])
        parseAsString "NOW"
      = (⟨500, [("error", .str "Failed to process PDF file"),
                ("details", .str "Assignment to constant variable")]⟩,
         ⟨[("output/doc.txt", "hello"), ("output/doc.json", "rawjson")]⟩) :=
  ⟨rfl, rfl, rfl, rfl⟩

/-- Claim C3, counterexample: with exactly one candidate pair in the output
directory (and both named strategies failing), the claim demands that
resolution succeed, but `resolveArtifacts` fails with the `const`
reassignment TypeError instead. -/
theorem C3_single_pair_not_accepted :
    (scanFs.readdir "output").filter (fun n => ".txt".data.isSuffixOf n.data) = ["other.txt"] ∧
    (scanFs.readdir "output").filter (fun n => ".json".data.isSuffixOf n.data) = ["other.json"] ∧
    scanFs.existsFile "output/doc_111.txt" = false ∧
    scanFs.existsFile "output/doc.txt" = false ∧
    resolveArtifacts sampleFile scanFs = .error "Assignment to constant variable" :=
  ⟨rfl, rfl, rfl, rfl, rfl⟩

/-- Claim C3, amended: when neither named strategy resolves, the directory
scan never accepts a pair.  If at least one `.txt` and at least one `.json`
entry exist it throws the `const` reassignment TypeError (no recency
comparison is ever made), and otherwise it throws
`Output files not found after extraction`; no `ArtifactResolutionFailed`
error kind exists. -/
theorem C3_scan_never_resolves (f : UploadedFile) (fs : Fs)
    (h1 : (!fs.existsFile (outputDirOf f ++ "/" ++ basenameSuffix f.filename ".pdf" ++ ".txt") ||
           !fs.existsFile (outputDirOf f ++ "/" ++ basenameSuffix f.filename ".pdf" ++ ".json"))
          = true)
    (h2 : (fs.existsFile (outputDirOf f ++ "/" ++ basenameSuffix f.originalname ".pdf" ++ ".txt") &&
           fs.existsFile (outputDirOf f ++ "/" ++ basenameSuffix f.originalname ".pdf" ++ ".json"))
          = false) :
    resolveArtifacts f fs
      = .error
          (if ((fs.readdir (outputDirOf f)).filter
                  (fun n => ".txt".data.isSuffixOf n.data)).length > 0 ∧
              ((fs.readdir (outputDirOf f)).filter
                  (fun n => ".json".data.isSuffixOf n.data)).length > 0
           then "Assignment to constant variable"
           else "Output files not found after extraction") := by
  simp only [resolveArtifacts, h1, h2, if_true, Bool.false_eq_true, if_false]
  split <;> rfl

/-- Witness for `C3_scan_never_resolves` at a concrete input. -/
theorem C3_scan_never_resolves_witness :
    resolveArtifacts sampleFile scanFs = .error "Assignment to constant variable" := by
  have h := C3_scan_never_resolves sampleFile scanFs rfl rfl
  exact h

/-- Claim C4, counterexample: a successful (status 200) result object whose
field list is exactly success, txtContent, txtFilename, jsonContent,
jsonFilename, metadata — it contains no prediction field at all. -/
theorem C4_success_without_prediction :
    (handleExtract (some sampleFile) uploadedFs
        (execWriting [("output/doc_111.txt", "hello"), ("output/doc_111.json", "rawjson")])
        parseAsString "NOW").1.status = 200 ∧
    (handleExtract (some sampleFile) uploadedFs
        (execWriting [("output/doc_111.txt", "hello"), ("output/doc_111.json", "rawjson")])
        parseAsString "NOW").1.body.map Prod.fst
      = ["success", "txtContent", "txtFilename", "jsonContent", "jsonFilename", "metadata"] ∧
    ((handleExtract (some sampleFile) uploadedFs
        (execWriting [("output/doc_111.txt", "hello"), ("output/doc_111.json", "rawjson")])
        parseAsString "NOW").1.body.map Prod.fst).contains "prediction" = false :=
  ⟨rfl, rfl, rfl⟩

/-- Claim C4, amended: no response the handler can produce, on any path,
contains a prediction field; the backend never invokes a classification
capability, so no `ai_analysis_available` marker exists anywhere. -/
theorem C4_no_prediction_field (reqFile : Option UploadedFile) (fs0 : Fs)
    (exec : Fs → ExecResult) (parseJson : String → Except String JsonValue) (now : String) :
    (((handleExtract reqFile fs0 exec parseJson now).1.body.map Prod.fst).contains "prediction")
      = false := by
  cases reqFile with
  | none => simp [handleExtract]
  | some f =>
    simp only [handleExtract]
    repeat' split
    all_goals simp [respondError, successResponse]

/-- Claim C5, counterexample: two distinct jobs are handed the same output
directory, so the directory is not unique to a job. -/
theorem C5_shared_output_dir_cex :
    outputDirOf sampleFile = outputDirOf otherFile ∧ sampleFile ≠ otherFile :=
  ⟨rfl, by decide⟩

/-- Claim C5, amended: the extraction output directory is one server-wide
constant; every job, whatever its upload, is passed the same directory. -/
theorem C5_output_dir_constant (j1 j2 : UploadedFile) :
    outputDirOf j1 = outputDirOf j2 ∧ outputDirOf j1 = "output" :=
  ⟨rfl, rfl⟩

/-- Claim C6: every request the shipped frontend can produce puts the file
part under the field name `file`, so multer aborts with
`LIMIT_UNEXPECTED_FILE` before the handler runs; the server answers with the
generic 500 error response and the filesystem is untouched — no success
result is ever produced through the bundled UI. -/
theorem C6_frontend_field_never_succeeds (name content : String) (size timestamp : Nat)
    (fs : Fs) (exec : Fs → ExecResult) (parseJson : String → Except String JsonValue)
    (now : String) :
    uploadSingle (frontendRequestParts name content size) timestamp
      = .error (.multerErr .limitUnexpectedFile) ∧
    postExtract (frontendRequestParts name content size) timestamp fs exec parseJson now
      = (⟨500, [("error", .str "Internal server error")]⟩, fs) :=
  ⟨rfl, rfl⟩

/-- Claim C7, counterexample: when extraction fails with a spawn error, the
response body sent to the caller contains the underlying error message
verbatim in its `details` field. -/
theorem C7_details_leak_cex :
    (handleExtract (some sampleFile) uploadedFs
        (fun fs => ⟨fs, .spawnError "spawn python ENOENT"⟩) parseAsString "NOW").1
      = ⟨500, [("error", .str "Failed to process PDF file"),
               ("details", .str "spawn python ENOENT")]⟩ :=
  rfl

/-- Claim C7, amended: every stage failure is surfaced as a 500 whose body
holds a generic `error` field plus a `details` field carrying the underlying
error message verbatim — the cause is logged and also leaked to the caller. -/
theorem C7_error_details_verbatim (f : UploadedFile) (fs0 fsr : Fs) (m : String)
    (parseJson : String → Except String JsonValue) (now : String) :
    handleExtract (some f) fs0 (fun _ => ⟨fsr, .spawnError m⟩) parseJson now
      = (⟨500, [("error", .str "Failed to process PDF file"), ("details", .str m)]⟩,
         fsr.removeFile f.path) :=
  rfl

/-- Claim C8, counterexample: two distinct concurrent acquisitions with the
same original filename and the same `Date.now()` millisecond receive the
same stored filename, so stored names do collide. -/
theorem C8_same_millisecond_collision :
    ¬ storedNamesAllDistinct [("report.pdf", 12345), ("report.pdf", 12345)] := by
  intro h
  exact (List.pairwise_cons.mp h).1 ("report.pdf", 12345) (List.mem_singleton.mpr rfl) rfl

/-- Claim C8, amended: the stored name is the original base name plus an
underscore and the `Date.now()` value, so two acquisitions of the same
original filename collide exactly when they fall in the same millisecond;
with distinct timestamps the stored names are distinct. -/
theorem C8_distinct_timestamps_distinct_names (nm : String) (t1 t2 : Nat) (h : t1 ≠ t2) :
    storageFilename nm t1 ≠ storageFilename nm t2 := by
  intro he
  apply h
  apply natToString_inj
  apply String.ext
  unfold storageFilename at he
  have hd := congrArg String.data he
  simp only [strData_append] at hd
  exact List.append_cancel_left (List.append_cancel_right hd)

/-- Witness for `C8_distinct_timestamps_distinct_names` at a concrete input. -/
theorem C8_distinct_timestamps_distinct_names_witness :
    storageFilename "report.pdf" 1 ≠ storageFilename "report.pdf" 2 :=
  C8_distinct_timestamps_distinct_names "report.pdf" 1 2 (by decide)

/-- Claim C9, counterexample: an empty (zero-byte) PDF upload is accepted by
the middleware and processed by the handler — it reaches extraction and
fails only afterwards, with the resolution error, not with any
input-validation rejection. -/
theorem C9_empty_upload_accepted :
    uploadSingle [⟨"pdf", "empty.pdf", "application/pdf", 0, ""⟩] 7
      = .ok (some ⟨"pdf", "empty.pdf", "application/pdf", 0, "empty_7.pdf",
                   "uploads/empty_7.pdf", ""⟩) ∧
    (postExtract [⟨"pdf", "empty.pdf", "application/pdf", 0, ""⟩] 7 ⟨[]⟩
        execSilent parseAsString "NOW").1
      = ⟨500, [("error", .str "Failed to process PDF file"),
               ("details", .str "Output files not found after extraction")]⟩ :=
  ⟨rfl, rfl⟩

/-- Claim C9, amended: only the 50MB size ceiling (and the PDF mimetype
filter) are validated before the handler: an oversize upload is rejected
with a 400 client error before any processing, while a zero-byte upload is
never rejected — it is stored and handed to the handler. -/
theorem C9_size_ceiling_enforced (name content : String) (size timestamp : Nat) (fs : Fs)
    (exec : Fs → ExecResult) (parseJson : String → Except String JsonValue) (now : String)
    (hbig : fileSizeLimit < size) :
    postExtract [⟨"pdf", name, "application/pdf", size, content⟩] timestamp fs exec parseJson now
      = (⟨400, [("error", .str "File too large (max 50MB)")]⟩, fs) ∧
    ∀ (name0 content0 : String) (ts0 : Nat),
      uploadSingle [⟨"pdf", name0, "application/pdf", 0, content0⟩] ts0
        = .ok (some ⟨"pdf", name0, "application/pdf", 0, storageFilename name0 ts0,
                     "uploads/" ++ storageFilename name0 ts0, content0⟩) := by
  constructor
  · simp [postExtract, uploadSingle, uploadSingleGo, hbig, errorMiddleware]
  · intro name0 content0 ts0
    simp [uploadSingle, uploadSingleGo, fileSizeLimit]

/-- Witness for `C9_size_ceiling_enforced` at a concrete input. -/
theorem C9_size_ceiling_enforced_witness :
    postExtract [⟨"pdf", "big.pdf", "application/pdf", 52428801, "x"⟩] 7 ⟨[]⟩
        execSilent parseAsString "NOW"
      = (⟨400, [("error", .str "File too large (max 50MB)")]⟩, ⟨[]⟩) :=
  (C9_size_ceiling_enforced "big.pdf" "x" 52428801 7 ⟨[]⟩ execSilent parseAsString "NOW"
    (by decide)).1

/-- Claim C10: `runPythonExtractor` succeeds exactly when the process exits
with code 0, whatever stderr it produced; a non-zero exit code or a spawn
failure is the only way the extraction stage fails. -/
theorem C10_stderr_nonfatal :
    (∀ (fsr : Fs) (out err : String),
        runPythonExtractor ⟨fsr, .completed 0 out err⟩ = (fsr, .ok true)) ∧
    (∀ (fsr : Fs) (code : Nat) (out err : String), code ≠ 0 →
        runPythonExtractor ⟨fsr, .completed code out err⟩
          = (fsr, .error (execFailureMessage code))) ∧
    (∀ (fsr : Fs) (msg : String),
        runPythonExtractor ⟨fsr, .spawnError msg⟩ = (fsr, .error msg)) := by
  refine ⟨fun _ _ _ => rfl, fun fsr code out err hc => ?_, fun _ _ => rfl⟩
  simp [runPythonExtractor, hc]

/-- Witness for `C10_stderr_nonfatal` at concrete inputs, including a run
with non-empty stderr and exit code 0. -/
theorem C10_stderr_nonfatal_witness :
    runPythonExtractor ⟨⟨[]⟩, .completed 0 "" "fontTools: dropping glyph"⟩ = (⟨[]⟩, .ok true) ∧
    runPythonExtractor ⟨⟨[]⟩, .completed 1 "" ""⟩ = (⟨[]⟩, .error (execFailureMessage 1)) :=
  ⟨C10_stderr_nonfatal.1 ⟨[]⟩ "" "fontTools: dropping glyph",
   C10_stderr_nonfatal.2.1 ⟨[]⟩ 1 "" "" (by decide)⟩

end Pragati
